import Mathlib

/-!
Verification of the `Gemma3nService` mock LLM service (gemma3nService.ts).

The service is a stub: initialization waits on timers and installs a handle
tagged with the platform name; generation picks one of three canned templates
for that platform (the random index is modeled as an explicit `pick : Fin 3`
parameter, the value of `Math.floor(Math.random() * 3)`), embeds a bounded
piece of the prompt and appends one keyword-selected suffix. Streaming splits
the precomputed response on the space character and yields growing prefixes.
Strings are modeled as sequences of characters; the JavaScript operations
`substring`, `split`, `join`, `includes`, `toLowerCase` are modeled at the
character-list level. Timers and console logging have no observable effect on
results and are omitted. Thrown JavaScript errors are modeled as explicit
`Except`/`Option` error values carrying the message string.
-/

namespace Gemma3n

/-- Model size enum, source values "E2B" and "E4B". -/
inductive ModelSize where
  | E2B
  | E4B
deriving DecidableEq

/-- Configuration record `Gemma3nConfig`; the optional TypeScript fields are
modeled as `Option` (with `none` meaning the field was not supplied). -/
structure Gemma3nConfig where
  modelSize : ModelSize
  maxTokens : Option Nat := none
  temperature : Option ℚ := none
  topK : Option Nat := none
  quantized : Option Bool := none
deriving DecidableEq

/-- Mutable fields of class `Gemma3nService`. The generator handle
`textGenerator` carries only its observable payload: the platform tag. -/
structure Service where
  textGenerator : Option String
  isModelLoaded : Bool
  config : Gemma3nConfig
deriving DecidableEq

/-- The constructor: defaults merged with the caller configuration via object
spread, caller fields taking precedence (maxTokens 512, temperature 0.7,
topK 50, quantized true). -/
def mkService (config : Gemma3nConfig) : Service :=
  { textGenerator := none
    isModelLoaded := false
    config :=
      { modelSize := config.modelSize
        maxTokens := some (config.maxTokens.getD 512)
        temperature := some (config.temperature.getD (7 / 10))
        topK := some (config.topK.getD 50)
        quantized := some (config.quantized.getD true) } }

/-- Options argument of `generateText` and `generateTextStream`. -/
structure GenOptions where
  maxTokens : Option Nat := none
  temperature : Option ℚ := none
  topK : Option Nat := none
  stream : Option Bool := none
deriving DecidableEq

/-- JavaScript `prompt.substring(0, n)`: the first `n` characters. -/
def jsSubstring0 (s : String) (n : Nat) : String :=
  String.mk (s.data.take n)

/-- Character-list test: does `l` start with `pat`. -/
def listStartsWith : List Char → List Char → Bool
  | _, [] => true
  | [], _ :: _ => false
  | c :: cs, p :: ps => c == p && listStartsWith cs ps

/-- Character-list test: does `pat` occur somewhere inside `l`. -/
def listIncludes : List Char → List Char → Bool
  | [], pat => pat.isEmpty
  | c :: tl, pat => listStartsWith (c :: tl) pat || listIncludes tl pat

/-- JavaScript `s.includes(pat)`. -/
def jsIncludes (s pat : String) : Bool :=
  listIncludes s.data pat.data

/-- JavaScript `s.charAt(0).toUpperCase() + s.slice(1)`. -/
def capitalizeFirst (s : String) : String :=
  match s.data with
  | [] => ""
  | c :: cs => String.mk (Char.toUpper c :: cs)

/-- JavaScript `s.split(' ')`: split on every occurrence of the space
character (empty pieces are kept, `"".split(' ')` gives `[""]`). -/
def jsSplitSpace (s : String) : List String :=
  (s.data.splitOn ' ').map String.mk

/-- JavaScript `words.join(' ')`. -/
def jsJoinSpace (l : List String) : String :=
  String.mk (List.intercalate [' '] (l.map String.data))

/-- The three iOS response templates of `generateWithNativeModel`. -/
def iosResponses (prompt : String) : List String :=
  [ "Using Core ML optimization on iOS to process: \"" ++ jsSubstring0 prompt 40 ++ "..." ++
      "\" Here\x27s my analysis based on the advanced neural processing capabilities."
  , "iOS neural engine processing complete. Regarding \"" ++ jsSubstring0 prompt 35 ++ "..." ++
      "\", I can provide detailed insights using on-device intelligence."
  , "Core ML inference suggests that \"" ++ jsSubstring0 prompt 45 ++ "..." ++
      "\" involves several key factors that I\x27ll explain using iOS-optimized processing." ]

/-- The three Android response templates of `generateWithNativeModel`. -/
def androidResponses (prompt : String) : List String :=
  [ "Android TensorFlow Lite processing: \"" ++ jsSubstring0 prompt 40 ++ "..." ++
      "\" Your query has been analyzed using Google\x27s mobile ML optimization."
  , "Using Android ML Kit for \"" ++ jsSubstring0 prompt 35 ++ "..." ++
      "\" Here\x27s what the optimized inference reveals about this topic."
  , "TensorFlow Lite mobile inference complete for \"" ++ jsSubstring0 prompt 45 ++ "..." ++
      "\" Let me share the processed insights." ]

/-- The three web response templates of `generateWithNativeModel`. -/
def webResponses (prompt : String) : List String :=
  [ "Web ONNX.js processing: \"" ++ jsSubstring0 prompt 40 ++ "..." ++
      "\" Browser-based inference provides these insights about your question."
  , "Using optimized web inference for \"" ++ jsSubstring0 prompt 35 ++ "..." ++
      "\" Here\x27s what the client-side model analysis reveals."
  , "WebAssembly-accelerated processing of \"" ++ jsSubstring0 prompt 45 ++ "..." ++
      "\" provides these comprehensive insights." ]

/-- Object lookup `platformResponses[platform] || platformResponses.web`:
the keyed lists, with fallback to the web list for an unrecognized key. -/
def platformResponses (platform prompt : String) : List String :=
  if platform == "ios" then iosResponses prompt
  else if platform == "android" then androidResponses prompt
  else if platform == "web" then webResponses prompt
  else webResponses prompt

/-- Contextual suffix appended when the lower-cased prompt contains "how". -/
def suffixHow (platform : String) : String :=
  " The " ++ platform ++ " platform enables step-by-step analysis with optimized inference speeds."

/-- Contextual suffix appended when the lower-cased prompt contains "what". -/
def suffixWhat (platform : String) : String :=
  " " ++ capitalizeFirst platform ++ " hardware acceleration provides comprehensive understanding."

/-- Contextual suffix appended when the lower-cased prompt contains "why". -/
def suffixWhy (platform : String) : String :=
  " Platform-specific optimization on " ++ platform ++ " reveals the underlying reasoning patterns."

/-- Default contextual suffix. -/
def suffixDefault (platform : String) : String :=
  " Native " ++ platform ++ " processing ensures optimal performance and accuracy."

/-- Body of `generateWithNativeModel(prompt, options)`: pick a template from
the platform-keyed list by the random index, then append exactly one suffix
by keyword precedence how, then what, then why, then the default. The
`options` argument is received but never read, exactly as in the source. -/
def generateWithNativeModel (platform prompt : String) (options : GenOptions)
    (pick : Fin 3) : String :=
  let responses := platformResponses platform prompt
  let response := responses.getD pick.val ""
  let promptLower := String.toLower prompt
  if jsIncludes promptLower "how" then response ++ suffixHow platform
  else if jsIncludes promptLower "what" then response ++ suffixWhat platform
  else if jsIncludes promptLower "why" then response ++ suffixWhy platform
  else response ++ suffixDefault platform

/-- Specification-side selector: the suffix that `generateWithNativeModel`
appends, in isolation. -/
def contextSuffix (platform prompt : String) : String :=
  let promptLower := String.toLower prompt
  if jsIncludes promptLower "how" then suffixHow platform
  else if jsIncludes promptLower "what" then suffixWhat platform
  else if jsIncludes promptLower "why" then suffixWhy platform
  else suffixDefault platform

/-- Error message thrown by `generateText` and `generateTextStream` when the
model is not loaded. -/
def notLoadedMsg : String := "Model not loaded. Call initializeModel() first."

/-- The LOADED lifecycle state: the loaded flag is set and a generator handle
is installed. -/
def loadedState (s : Service) : Bool :=
  s.isModelLoaded && s.textGenerator.isSome

/-- A service in the LOADED state, with its recorded platform tag. -/
def loadedService (platform : String) (cfg : Gemma3nConfig) : Service :=
  { textGenerator := some platform, isModelLoaded := true, config := cfg }

/-- Method `generateText`: guard on the loaded state, then delegate to the
generator handle. The simulated latency timer is unobservable and omitted.
The source never mutates service state here, so the state passes through. -/
def generateText (s : Service) (prompt : String) (options : GenOptions)
    (pick : Fin 3) : Service × Except String String :=
  match s.textGenerator with
  | none => (s, Except.error notLoadedMsg)
  | some platform =>
    if s.isModelLoaded then
      (s, Except.ok (generateWithNativeModel platform prompt options pick))
    else (s, Except.error notLoadedMsg)

/-- Method `generateTextStream`: guard on the loaded state, compute the full
response up front, split it on the space character, and yield the growing
space-joined prefixes. The finite list collects the yielded values in
order. -/
def generateTextStream (s : Service) (prompt : String) (options : GenOptions)
    (pick : Fin 3) : Service × Except String (List String) :=
  match s.textGenerator with
  | none => (s, Except.error notLoadedMsg)
  | some platform =>
    if s.isModelLoaded then
      let fullResponse := generateWithNativeModel platform prompt options pick
      let words := jsSplitSpace fullResponse
      (s, Except.ok ((List.range words.length).map
            (fun i => jsJoinSpace (words.take (i + 1)))))
    else (s, Except.error notLoadedMsg)

/-- Chat message roles accepted by `chat`. -/
inductive Role where
  | user
  | assistant
  | system
deriving DecidableEq

/-- One chat message. -/
structure ChatMessage where
  role : Role
  content : String
deriving DecidableEq

/-- Rendering of one message inside `formatChatPrompt`: system and user both
render as a user turn, assistant renders as a model turn. -/
def renderMessage (m : ChatMessage) : String :=
  match m.role with
  | Role.system => "<start_of_turn>user\n" ++ m.content ++ "<end_of_turn>\n"
  | Role.user => "<start_of_turn>user\n" ++ m.content ++ "<end_of_turn>\n"
  | Role.assistant => "<start_of_turn>model\n" ++ m.content ++ "<end_of_turn>\n"

/-- Method `formatChatPrompt`: accumulate the rendered messages in input
order, then append the trailing model-turn opener. -/
def formatChatPrompt (messages : List ChatMessage) : String :=
  (messages.foldl (fun acc m => acc ++ renderMessage m) "") ++ "<start_of_turn>model\n"

/-- Method `chat`: format the messages and delegate to `generateText`. -/
def chat (s : Service) (messages : List ChatMessage) (options : GenOptions)
    (pick : Fin 3) : Service × Except String String :=
  generateText s (formatChatPrompt messages) options pick

/-- Options argument of `processAudio`. -/
structure AudioOptions where
  targetLanguage : Option String := none
deriving DecidableEq

/-- Task argument of `processAudio`. -/
inductive AudioTask where
  | transcribe
  | translate
deriving DecidableEq

/-- Method `analyzeImage`: unconditionally throws, no state change. -/
def analyzeImage (s : Service) (imageUri prompt : String) (options : GenOptions) :
    Service × Except String String :=
  (s, Except.error "Image analysis not yet implemented. Requires multimodal Gemma 3n setup.")

/-- Method `processAudio`: unconditionally throws, no state change. -/
def processAudio (s : Service) (audioUri : String) (task : AudioTask)
    (options : AudioOptions) : Service × Except String String :=
  (s, Except.error "Audio processing not yet implemented. Requires audio-enabled Gemma 3n setup.")

/-- Return record of `getModelInfo`. -/
structure ModelInfo where
  isLoaded : Bool
  modelSize : String
  config : Gemma3nConfig
deriving DecidableEq

/-- String value of the model size enum. -/
def modelSizeStr : ModelSize → String
  | ModelSize.E2B => "E2B"
  | ModelSize.E4B => "E4B"

/-- Method `getModelInfo`: report the loaded flag, the configured model size
and the stored configuration; no state change. -/
def getModelInfo (s : Service) : Service × ModelInfo :=
  (s, { isLoaded := s.isModelLoaded
        modelSize := modelSizeStr s.config.modelSize
        config := s.config })

/-- Environment of one `initializeModel` call: the outcome of platform
resolution and the outcome of the awaited platform-dispatch step (the
simulated loading delay), either of which may throw. -/
structure InitEnv where
  platformResult : Except String String
  dispatchResult : String → Except String Unit

/-- Platform dispatch of `initializeModel`: strict equality against "ios" and
"android", anything else takes the web branch. Each branch installs a handle
tagged with its own platform name. -/
def branchPlatform (platform : String) : String :=
  if platform == "ios" then "ios"
  else if platform == "android" then "android"
  else "web"

/-- Wrapping applied by the catch block of `initializeModel`. -/
def initErrorMsg (e : String) : String :=
  "Failed to initialize Gemma 3n: " ++ e

/-- Method `initializeModel`: resolve the platform, dispatch to the branch
initializer, install the tagged handle and set the loaded flag; any failure
is rethrown wrapped, before any mutation has happened. -/
def initializeModel (s : Service) (env : InitEnv) : Service × Option String :=
  match env.platformResult with
  | Except.error e => (s, some (initErrorMsg e))
  | Except.ok platform =>
    match env.dispatchResult (branchPlatform platform) with
    | Except.error e => (s, some (initErrorMsg e))
    | Except.ok _ =>
      ({ s with textGenerator := some (branchPlatform platform), isModelLoaded := true }, none)

/-- Method `unloadModel`: if a handle exists, discard it and clear the loaded
flag; otherwise do nothing. The body cannot throw, so the error component is
always `none`. -/
def unloadModel (s : Service) : Service × Option String :=
  if s.textGenerator.isSome then
    ({ s with textGenerator := none, isModelLoaded := false }, none)
  else (s, none)

/-- Implicit class invariant: the loaded flag is set exactly when a generator
handle is installed. -/
def serviceInv (s : Service) : Bool :=
  s.isModelLoaded == s.textGenerator.isSome

/-- A concrete configuration for witnesses. -/
def cfg0 : Gemma3nConfig := { modelSize := ModelSize.E2B }

/-- A freshly constructed service for witnesses. -/
def svc0 : Service := mkService cfg0

/-- A loaded service for witnesses. -/
def svcLoaded0 : Service := loadedService "web" cfg0

/-- An initialization environment in which every step succeeds. -/
def envOk : InitEnv :=
  { platformResult := Except.ok "web", dispatchResult := fun _ => Except.ok () }

/-- An initialization environment whose dispatch step throws. -/
def envFail : InitEnv :=
  { platformResult := Except.ok "web", dispatchResult := fun _ => Except.error "boom" }

/-- Empty options for witnesses. -/
def opts0 : GenOptions := {}

/-- Populated options for witnesses. -/
def optsA : GenOptions :=
  { maxTokens := some 16, temperature := some 1, topK := some 5, stream := some true }

theorem mapMkData (L : List (List Char)) : (L.map String.mk).map String.data = L := by
  induction L with
  | nil => rfl
  | cons a t ih =>
    simp only [List.map_cons]
    rw [ih]

/-- Joining on the space character undoes splitting on the space character:
the JavaScript identity `s.split(espace).join(espace) == s`. -/
theorem jsJoin_jsSplit (s : String) : jsJoinSpace (jsSplitSpace s) = s := by
  unfold jsJoinSpace jsSplitSpace
  rw [mapMkData, List.intercalate_splitOn]

theorem jsSplit_ne_nil (s : String) : jsSplitSpace s ≠ [] := by
  unfold jsSplitSpace
  intro hc
  exact List.splitOnP_ne_nil _ _ (List.map_eq_nil_iff.mp hc)

theorem intercalate_cons2 {α : Type} (sep z : List α) :
    ∀ zs : List (List α), zs ≠ [] →
      List.intercalate sep (z :: zs) = z ++ sep ++ List.intercalate sep zs
  | [], h => absurd rfl h
  | z2 :: zs2, _ => by
    simp only [List.intercalate, List.intersperse_cons_cons, List.flatten_cons,
      List.append_assoc]

theorem intercalate_concat {α : Type} (sep w : List α) :
    ∀ L : List (List α), L ≠ [] →
      List.intercalate sep (L ++ [w]) = List.intercalate sep L ++ sep ++ w
  | [], h => absurd rfl h
  | [x], _ => by
    simp [List.intercalate, List.intersperse_cons_cons, List.intersperse_singleton,
      List.flatten_cons, List.flatten_nil, List.append_assoc]
  | x :: y :: tl, _ => by
    have ih := intercalate_concat sep w (y :: tl) (by simp)
    have h1 : ((x :: y :: tl) ++ [w]) = x :: ((y :: tl) ++ [w]) := rfl
    rw [h1, intercalate_cons2 sep x ((y :: tl) ++ [w]) (by simp),
      intercalate_cons2 sep x (y :: tl) (by simp), ih]
    simp [List.append_assoc]

theorem dataMk (l : List Char) : (String.mk l).data = l := rfl

theorem dataSpace : (" " : String).data = [' '] := rfl

/-- Appending one more word to a nonempty join adds a space and the word. -/
theorem jsJoin_concat (xs : List String) (w : String) (h : xs ≠ []) :
    jsJoinSpace (xs ++ [w]) = jsJoinSpace xs ++ (" " ++ w) := by
  have hm : xs.map String.data ≠ [] := by
    intro hc; exact h (List.map_eq_nil_iff.mp hc)
  apply String.ext
  simp only [jsJoinSpace, String.data_append, dataMk, dataSpace, List.map_append,
    List.map_cons, List.map_nil]
  rw [intercalate_concat [' '] w.data (xs.map String.data) hm, List.append_assoc]

/-- Specification-side rendering of a message list: concatenation in input
order. -/
def joinMessages : List ChatMessage → String
  | [] => ""
  | m :: ms => renderMessage m ++ joinMessages ms

theorem foldl_joinMessages (msgs : List ChatMessage) :
    ∀ acc : String,
      msgs.foldl (fun acc m => acc ++ renderMessage m) acc = acc ++ joinMessages msgs := by
  induction msgs with
  | nil => intro acc; simp [joinMessages]
  | cons m ms ih =>
    intro acc
    simp only [List.foldl_cons, joinMessages, ih, String.append_assoc]

/-- Claim C4: formatChatPrompt is a pure synchronous function rendering the
messages in input order, with SYSTEM and USER both rendered as a user turn
and ASSISTANT as a model turn, followed by a trailing model-turn opener; on
the concrete list [(SYSTEM, a), (USER, b), (ASSISTANT, c)] it produces
exactly the literal string of the claim. -/
theorem claim4_formatChatPrompt (msgs : List ChatMessage) (c : String) :
    formatChatPrompt msgs = joinMessages msgs ++ "<start_of_turn>model\n"
    ∧ joinMessages [] = ""
    ∧ (∀ m ms, joinMessages (m :: ms) = renderMessage m ++ joinMessages ms)
    ∧ renderMessage { role := Role.system, content := c }
        = "<start_of_turn>user\n" ++ c ++ "<end_of_turn>\n"
    ∧ renderMessage { role := Role.user, content := c }
        = "<start_of_turn>user\n" ++ c ++ "<end_of_turn>\n"
    ∧ renderMessage { role := Role.assistant, content := c }
        = "<start_of_turn>model\n" ++ c ++ "<end_of_turn>\n"
    ∧ formatChatPrompt
        [ { role := Role.system, content := "a" }
        , { role := Role.user, content := "b" }
        , { role := Role.assistant, content := "c" } ]
        = "<start_of_turn>user\na<end_of_turn>\n<start_of_turn>user\nb<end_of_turn>\n<start_of_turn>model\nc<end_of_turn>\n<start_of_turn>model\n" := by
  refine ⟨?_, rfl, fun m ms => rfl, rfl, rfl, rfl, ?_⟩
  · unfold formatChatPrompt
    rw [foldl_joinMessages, String.empty_append]
  · decide

/-- Claim C7: unloadModel is idempotent and safe in every state: it never
reports an error, discards an existing handle and clears the loaded flag, is
a no-op when no handle exists, and running it twice equals running it
once. -/
theorem claim7_unload_idempotent (s : Service) :
    (unloadModel s).2 = none
    ∧ (s.textGenerator.isSome = true →
        (unloadModel s).1 = { s with textGenerator := none, isModelLoaded := false })
    ∧ (s.textGenerator = none → (unloadModel s).1 = s)
    ∧ unloadModel (unloadModel s).1 = unloadModel s := by
  obtain ⟨tg, ml, cf⟩ := s
  cases tg <;> simp [unloadModel]

/-- Claim C7 witness: the theorem applied to a concrete loaded service, with
the handle-existence hypothesis discharged by computation. -/
theorem claim7_witness :
    (unloadModel svcLoaded0).2 = none
    ∧ (unloadModel svcLoaded0).1
        = { svcLoaded0 with textGenerator := none, isModelLoaded := false }
    ∧ unloadModel (unloadModel svcLoaded0).1 = unloadModel svcLoaded0 :=
  ⟨(claim7_unload_idempotent svcLoaded0).1,
   (claim7_unload_idempotent svcLoaded0).2.1 (by decide),
   (claim7_unload_idempotent svcLoaded0).2.2.2⟩

/-- Claim C8: analyzeImage and processAudio fail with their fixed
not-implemented error for every input and in every service state, and leave
the service state unchanged. -/
theorem claim8_multimodal_stubs (s : Service) (uri prompt : String)
    (task : AudioTask) (iopts : GenOptions) (aopts : AudioOptions) :
    analyzeImage s uri prompt iopts
      = (s, Except.error
          "Image analysis not yet implemented. Requires multimodal Gemma 3n setup.")
    ∧ processAudio s uri task aopts
      = (s, Except.error
          "Audio processing not yet implemented. Requires audio-enabled Gemma 3n setup.") :=
  ⟨rfl, rfl⟩

/-- Claim C9: the options argument is a pass-through no-op: with the same
state, prompt and random pick, generateText, generateTextStream and chat
return identical results under any two options values. -/
theorem claim9_options_noop (s : Service) (prompt : String)
    (o1 o2 : GenOptions) (pick : Fin 3) (msgs : List ChatMessage) :
    generateText s prompt o1 pick = generateText s prompt o2 pick
    ∧ generateTextStream s prompt o1 pick = generateTextStream s prompt o2 pick
    ∧ chat s msgs o1 pick = chat s msgs o2 pick := by
  obtain ⟨tg, ml, cf⟩ := s
  cases tg <;> cases ml <;> exact ⟨rfl, rfl, rfl⟩

/-- Claim C1: generateText, generateTextStream and chat fail with the
model-not-loaded error exactly when the service is not in the LOADED state;
in particular a freshly constructed service and a service after unloadModel
are not LOADED, and a LOADED service never receives that error. -/
theorem claim1_not_loaded_gate (s : Service) (cfg : Gemma3nConfig)
    (prompt : String) (options : GenOptions) (pick : Fin 3)
    (msgs : List ChatMessage) :
    ((generateText s prompt options pick).2 = Except.error notLoadedMsg
        ↔ loadedState s = false)
    ∧ ((generateTextStream s prompt options pick).2 = Except.error notLoadedMsg
        ↔ loadedState s = false)
    ∧ ((chat s msgs options pick).2 = Except.error notLoadedMsg
        ↔ loadedState s = false)
    ∧ loadedState (mkService cfg) = false
    ∧ loadedState (unloadModel s).1 = false := by
  obtain ⟨tg, ml, cf⟩ := s
  cases tg <;> cases ml <;>
    simp [generateText, generateTextStream, chat, loadedState, mkService, unloadModel]

/-- Claim C5: the constructor stores the merge of the defaults with the
caller-supplied fields, caller values taking precedence, and after a
successful initializeModel, getModelInfo reports loaded = true, the
configured model size, and exactly that merged configuration. -/
theorem claim5_config_merge (c : Gemma3nConfig) (env : InitEnv)
    (hok : (initializeModel (mkService c) env).2 = none) :
    (mkService c).config
      = { modelSize := c.modelSize
          maxTokens := some (c.maxTokens.getD 512)
          temperature := some (c.temperature.getD (7 / 10))
          topK := some (c.topK.getD 50)
          quantized := some (c.quantized.getD true) }
    ∧ (getModelInfo (initializeModel (mkService c) env).1).2.isLoaded = true
    ∧ (getModelInfo (initializeModel (mkService c) env).1).2.modelSize
        = modelSizeStr c.modelSize
    ∧ (getModelInfo (initializeModel (mkService c) env).1).2.config
        = (mkService c).config := by
  refine ⟨rfl, ?_⟩
  cases hp : env.platformResult with
  | error e => simp [initializeModel, hp] at hok
  | ok platform =>
    cases hd : env.dispatchResult (branchPlatform platform) with
    | error e => simp [initializeModel, hp, hd] at hok
    | ok u => simp [initializeModel, hp, hd, getModelInfo, mkService]

/-- Claim C5 witness: the theorem applied to a concrete partial
configuration and an environment in which initialization succeeds. -/
theorem claim5_witness :
    (initializeModel (mkService { modelSize := ModelSize.E4B, topK := some 7 }) envOk).2 = none
    ∧ ((mkService { modelSize := ModelSize.E4B, topK := some 7 }).config
        = { modelSize := ModelSize.E4B
            maxTokens := some 512
            temperature := some (7 / 10)
            topK := some 7
            quantized := some true }
      ∧ (getModelInfo (initializeModel
            (mkService { modelSize := ModelSize.E4B, topK := some 7 }) envOk).1).2.isLoaded = true
      ∧ (getModelInfo (initializeModel
            (mkService { modelSize := ModelSize.E4B, topK := some 7 }) envOk).1).2.modelSize
          = modelSizeStr ModelSize.E4B
      ∧ (getModelInfo (initializeModel
            (mkService { modelSize := ModelSize.E4B, topK := some 7 }) envOk).1).2.config
          = (mkService { modelSize := ModelSize.E4B, topK := some 7 }).config) :=
  ⟨rfl, claim5_config_merge { modelSize := ModelSize.E4B, topK := some 7 } envOk rfl⟩

/-- Claim C6: when any step of initializeModel fails, the call reports the
failure wrapped as an initialization error and the service state is exactly
the state before the call; in particular a NOT_LOADED service remains
NOT_LOADED. -/
theorem claim6_init_failure (s : Service) (env : InitEnv) (e : String)
    (hfail : (initializeModel s env).2 = some e) :
    (initializeModel s env).1 = s
    ∧ (∃ msg, e = initErrorMsg msg)
    ∧ ((initializeModel s env).1).isModelLoaded = s.isModelLoaded := by
  cases hp : env.platformResult with
  | error e2 =>
    have hred : initializeModel s env = (s, some (initErrorMsg e2)) := by
      simp [initializeModel, hp]
    rw [hred] at hfail
    exact ⟨by rw [hred], ⟨e2, (Option.some.inj hfail).symm⟩, by rw [hred]⟩
  | ok platform =>
    cases hd : env.dispatchResult (branchPlatform platform) with
    | error e2 =>
      have hred : initializeModel s env = (s, some (initErrorMsg e2)) := by
        simp [initializeModel, hp, hd]
      rw [hred] at hfail
      exact ⟨by rw [hred], ⟨e2, (Option.some.inj hfail).symm⟩, by rw [hred]⟩
    | ok u => simp [initializeModel, hp, hd] at hfail

/-- Claim C6 witness: the theorem applied to a fresh service and an
environment whose dispatch step throws "boom". -/
theorem claim6_witness :
    (initializeModel svc0 envFail).2 = some (initErrorMsg "boom")
    ∧ ((initializeModel svc0 envFail).1 = svc0
      ∧ (∃ msg, initErrorMsg "boom" = initErrorMsg msg)
      ∧ ((initializeModel svc0 envFail).1).isModelLoaded = svc0.isModelLoaded) :=
  ⟨rfl, claim6_init_failure svc0 envFail (initErrorMsg "boom") rfl⟩

/-- Claim C10: the implicit invariant that the loaded flag is set iff a
generator handle is installed holds for a freshly constructed service and is
preserved by every public operation, on success and on failure alike. -/
theorem claim10_invariant (s : Service) (hs : serviceInv s = true)
    (cfg : Gemma3nConfig) (env : InitEnv) (prompt uri : String)
    (options : GenOptions) (pick : Fin 3) (msgs : List ChatMessage)
    (task : AudioTask) (aopts : AudioOptions) :
    serviceInv (mkService cfg) = true
    ∧ serviceInv (initializeModel s env).1 = true
    ∧ serviceInv (generateText s prompt options pick).1 = true
    ∧ serviceInv (generateTextStream s prompt options pick).1 = true
    ∧ serviceInv (chat s msgs options pick).1 = true
    ∧ serviceInv (analyzeImage s uri prompt options).1 = true
    ∧ serviceInv (processAudio s uri task aopts).1 = true
    ∧ serviceInv (getModelInfo s).1 = true
    ∧ serviceInv (unloadModel s).1 = true := by
  obtain ⟨tg, ml, cf⟩ := s
  refine ⟨rfl, ?_, ?_, ?_, ?_, hs, hs, hs, ?_⟩
  · cases hp : env.platformResult with
    | error e => simpa [initializeModel, hp] using hs
    | ok platform =>
      cases hd : env.dispatchResult (branchPlatform platform) with
      | error e => simpa [initializeModel, hp, hd] using hs
      | ok u => simp [initializeModel, hp, hd, serviceInv]
  · cases tg <;> cases ml <;> simpa [generateText] using hs
  · cases tg <;> cases ml <;> simpa [generateTextStream] using hs
  · cases tg <;> cases ml <;> simpa [chat, generateText] using hs
  · cases tg with
    | none => simpa [unloadModel, serviceInv] using hs
    | some p => simp [unloadModel, serviceInv]

theorem iosShape (prompt : String) (pick : Fin 3) :
    ∃ pre n post, 35 ≤ n ∧ n ≤ 45
      ∧ (iosResponses prompt).getD pick.val ""
          = pre ++ jsSubstring0 prompt n ++ "..." ++ post := by
  fin_cases pick
  · exact ⟨"Using Core ML optimization on iOS to process: \"", 40,
      "\" Here\x27s my analysis based on the advanced neural processing capabilities.",
      by decide, by decide, rfl⟩
  · exact ⟨"iOS neural engine processing complete. Regarding \"", 35,
      "\", I can provide detailed insights using on-device intelligence.",
      by decide, by decide, rfl⟩
  · exact ⟨"Core ML inference suggests that \"", 45,
      "\" involves several key factors that I\x27ll explain using iOS-optimized processing.",
      by decide, by decide, rfl⟩

theorem androidShape (prompt : String) (pick : Fin 3) :
    ∃ pre n post, 35 ≤ n ∧ n ≤ 45
      ∧ (androidResponses prompt).getD pick.val ""
          = pre ++ jsSubstring0 prompt n ++ "..." ++ post := by
  fin_cases pick
  · exact ⟨"Android TensorFlow Lite processing: \"", 40,
      "\" Your query has been analyzed using Google\x27s mobile ML optimization.",
      by decide, by decide, rfl⟩
  · exact ⟨"Using Android ML Kit for \"", 35,
      "\" Here\x27s what the optimized inference reveals about this topic.",
      by decide, by decide, rfl⟩
  · exact ⟨"TensorFlow Lite mobile inference complete for \"", 45,
      "\" Let me share the processed insights.",
      by decide, by decide, rfl⟩

theorem webShape (prompt : String) (pick : Fin 3) :
    ∃ pre n post, 35 ≤ n ∧ n ≤ 45
      ∧ (webResponses prompt).getD pick.val ""
          = pre ++ jsSubstring0 prompt n ++ "..." ++ post := by
  fin_cases pick
  · exact ⟨"Web ONNX.js processing: \"", 40,
      "\" Browser-based inference provides these insights about your question.",
      by decide, by decide, rfl⟩
  · exact ⟨"Using optimized web inference for \"", 35,
      "\" Here\x27s what the client-side model analysis reveals.",
      by decide, by decide, rfl⟩
  · exact ⟨"WebAssembly-accelerated processing of \"", 45,
      "\" provides these comprehensive insights.",
      by decide, by decide, rfl⟩

/-- Claim C3: on a LOADED service, generateText returns the picked template
of the platform recorded at load time (the three fixed templates per
platform, the web list standing in for an unrecognized platform key), which
embeds the first 35 to 45 characters of the prompt (the count varying per
template) followed by "...", concatenated with exactly one contextual suffix
chosen by precedence how over what over why over the default on the
lower-cased prompt. -/
theorem claim3_generate_template (plat : String) (cfg : Gemma3nConfig)
    (prompt : String) (options : GenOptions) (pick : Fin 3) :
    (generateText (loadedService plat cfg) prompt options pick).2
      = Except.ok ((platformResponses plat prompt).getD pick.val ""
          ++ contextSuffix plat prompt)
    ∧ (platformResponses plat prompt).length = 3
    ∧ platformResponses plat prompt
        = (if plat = "ios" then iosResponses prompt
           else if plat = "android" then androidResponses prompt
           else webResponses prompt)
    ∧ (∃ pre n post, 35 ≤ n ∧ n ≤ 45
        ∧ (platformResponses plat prompt).getD pick.val ""
            = pre ++ jsSubstring0 prompt n ++ "..." ++ post)
    ∧ contextSuffix plat prompt
        = (if jsIncludes (String.toLower prompt) "how" then suffixHow plat
           else if jsIncludes (String.toLower prompt) "what" then suffixWhat plat
           else if jsIncludes (String.toLower prompt) "why" then suffixWhy plat
           else suffixDefault plat) := by
  have hcases : platformResponses plat prompt
      = (if plat = "ios" then iosResponses prompt
         else if plat = "android" then androidResponses prompt
         else webResponses prompt) := by
    by_cases h1 : plat = "ios"
    · simp [platformResponses, h1]
    · by_cases h2 : plat = "android"
      · simp [platformResponses, h1, h2]
      · by_cases h3 : plat = "web"
        · simp [platformResponses, h1, h2, h3]
        · simp [platformResponses, h1, h2, h3]
  refine ⟨?_, ?_, hcases, ?_, rfl⟩
  · show Except.ok (generateWithNativeModel plat prompt options pick) = _
    simp only [generateWithNativeModel, contextSuffix]
    split_ifs <;> rfl
  · rw [hcases]
    split_ifs <;> rfl
  · rw [hcases]
    split_ifs
    · exact iosShape prompt pick
    · exact androidShape prompt pick
    · exact webShape prompt pick

/-- Claim C2: on a LOADED service, generateTextStream computes the full
response by the generate algorithm up front, splits it on the space
character into N word tokens, and yields exactly N values, the i-th being
the space-joined prefix of the first i words; each yielded value strictly
extends the previous one, and the final value equals the full response,
which is exactly what generateText returns for the same random pick. -/
theorem claim2_stream_prefixes (plat : String) (cfg : Gemma3nConfig)
    (prompt : String) (options : GenOptions) (pick : Fin 3) :
    ∃ ys : List String,
      (generateTextStream (loadedService plat cfg) prompt options pick).2 = Except.ok ys
      ∧ (generateText (loadedService plat cfg) prompt options pick).2
          = Except.ok (generateWithNativeModel plat prompt options pick)
      ∧ ys.length
          = (jsSplitSpace (generateWithNativeModel plat prompt options pick)).length
      ∧ 0 < ys.length
      ∧ (∀ i, ∀ h : i < ys.length,
          ys.get ⟨i, h⟩ = jsJoinSpace
            ((jsSplitSpace (generateWithNativeModel plat prompt options pick)).take (i + 1)))
      ∧ (∀ i, ∀ h : i + 1 < ys.length, ∃ rest : String, rest ≠ ""
          ∧ ys.get ⟨i + 1, h⟩ = ys.get ⟨i, Nat.lt_of_succ_lt h⟩ ++ rest)
      ∧ ys.getLast? = some (generateWithNativeModel plat prompt options pick) := by
  set full := generateWithNativeModel plat prompt options pick with hfull
  set ws := jsSplitSpace full with hws
  have hpos : 0 < ws.length := List.length_pos.mpr (jsSplit_ne_nil full)
  refine ⟨(List.range ws.length).map (fun i => jsJoinSpace (ws.take (i + 1))),
    rfl, rfl, by simp, by simpa using hpos, ?_, ?_, ?_⟩
  · intro i h
    simp only [List.get_eq_getElem, List.getElem_map, List.getElem_range]
  · intro i h
    have hi1 : i + 1 < ws.length := by simpa using h
    have htake : ws.take (i + 1) ≠ [] := by
      intro hc
      have := congrArg List.length hc
      rw [List.length_take, List.length_nil] at this
      omega
    refine ⟨" " ++ ws.get ⟨i + 1, hi1⟩, ?_, ?_⟩
    · intro hc
      have := congrArg String.data hc
      simp [String.data_append, dataSpace] at this
    · simp only [List.get_eq_getElem, List.getElem_map, List.getElem_range]
      rw [← List.take_concat_get ws (i + 1) hi1, List.concat_eq_append]
      exact jsJoin_concat (ws.take (i + 1)) _ htake
  · rw [List.getLast?_eq_getElem?]
    simp only [List.length_map, List.length_range]
    rw [List.getElem?_eq_getElem (by simpa using Nat.sub_lt hpos Nat.one_pos)]
    simp only [List.getElem_map, List.getElem_range]
    have hN : ws.length - 1 + 1 = ws.length := by omega
    rw [hN, List.take_length, hws, jsJoin_jsSplit]

/-- Claim C10 witness: the theorem applied to a concrete loaded service with
the invariant hypothesis discharged by computation. -/
theorem claim10_witness :
    serviceInv svcLoaded0 = true
    ∧ (serviceInv (mkService cfg0) = true
      ∧ serviceInv (initializeModel svcLoaded0 envOk).1 = true
      ∧ serviceInv (generateText svcLoaded0 "hi" opts0 0).1 = true
      ∧ serviceInv (generateTextStream svcLoaded0 "hi" opts0 0).1 = true
      ∧ serviceInv (chat svcLoaded0 [] opts0 0).1 = true
      ∧ serviceInv (analyzeImage svcLoaded0 "u" "hi" opts0).1 = true
      ∧ serviceInv (processAudio svcLoaded0 "u" AudioTask.transcribe {}).1 = true
      ∧ serviceInv (getModelInfo svcLoaded0).1 = true
      ∧ serviceInv (unloadModel svcLoaded0).1 = true) :=
  ⟨by decide,
   claim10_invariant svcLoaded0 (by decide) cfg0 envOk "hi" "u" opts0 0 []
     AudioTask.transcribe {}⟩

end Gemma3n
